import Mathlib

/-!
# GT60 GPS tracker server — protocol engine model

A shallow embedding of the GT60 protocol engine (packet parsing, checksum,
command decoding, per-connection session loop) of the server.  JS strings are
modelled as `List Char`, JS numbers as `ℚ`, with `Option ℚ` used where a JS
`NaN` can flow (`none` = NaN).  Capture timestamps (`new Date().toISOString()`)
are omitted from the model: they are wall-clock dependent and no claim depends
on their value.  Non-finite JS numerics (`Infinity` literals accepted by
`parseFloat`) are outside the model.
-/

namespace GT60

/-- The whitespace set stripped by JS `String.prototype.trim`
(WhiteSpace ∪ LineTerminator). -/
def jsWhitespace (c : Char) : Bool :=
  c == ' ' || c == '\t' || c == '\n' || c == '\r' ||
  c.toNat == 11 || c.toNat == 12 || c.toNat == 160 || c.toNat == 0x1680 ||
  (0x2000 ≤ c.toNat && c.toNat ≤ 0x200A) ||
  c.toNat == 0x2028 || c.toNat == 0x2029 || c.toNat == 0x202F ||
  c.toNat == 0x205F || c.toNat == 0x3000 || c.toNat == 0xFEFF

/-- JS `String.prototype.trim`: strip whitespace from both ends. -/
def jsTrim (l : List Char) : List Char :=
  ((l.dropWhile jsWhitespace).reverse.dropWhile jsWhitespace).reverse

/-- JS `String.prototype.substring(a, b)`: indices clamped into `[0, length]`
and swapped when out of order. -/
def jsSubstring (l : List Char) (a b : Int) : List Char :=
  let a' := min a.toNat l.length
  let b' := min b.toNat l.length
  (l.take (max a' b')).drop (min a' b')

/-- Index of the last occurrence of `c` (helper for `lastIndexOf`). -/
def lastIndexOfAux : List Char → Char → Option Nat
  | [], _ => none
  | x :: xs, c =>
    match lastIndexOfAux xs c with
    | some i => some (i + 1)
    | none => if x = c then some 0 else none

/-- JS `String.prototype.lastIndexOf` (single-character needle): index of the
last occurrence, `-1` when absent. -/
def jsLastIndexOf (l : List Char) (c : Char) : Int :=
  match lastIndexOfAux l c with
  | some i => (i : Int)
  | none => -1

/-- Index of the first occurrence of `c` (helper for `indexOf`). -/
def indexOfAux : List Char → Char → Option Nat
  | [], _ => none
  | x :: xs, c => if x = c then some 0 else (indexOfAux xs c).map (· + 1)

/-- JS `String.prototype.indexOf` (single-character needle): index of the
first occurrence, `-1` when absent. -/
def jsIndexOf (l : List Char) (c : Char) : Int :=
  match indexOfAux l c with
  | some i => (i : Int)
  | none => -1

/-- Numeric value of a decimal digit character. -/
def digitVal (c : Char) : Nat := c.toNat - '0'.toNat

/-- Value of a string of decimal digits (big-endian). -/
def decDigitsVal (l : List Char) : Nat :=
  l.foldl (fun acc c => 10 * acc + digitVal c) 0

/-- Hexadecimal digit predicate (for the `parseInt` `0x` path). -/
def isHexDigitChar (c : Char) : Bool :=
  c.isDigit || ('a' ≤ c && c ≤ 'f') || ('A' ≤ c && c ≤ 'F')

/-- Numeric value of a hexadecimal digit character. -/
def hexDigitVal (c : Char) : Nat :=
  if c.isDigit then digitVal c
  else if 'a' ≤ c && c ≤ 'f' then c.toNat - 'a'.toNat + 10
  else c.toNat - 'A'.toNat + 10

/-- Value of a string of hexadecimal digits (big-endian). -/
def hexDigitsVal (l : List Char) : Nat :=
  l.foldl (fun acc c => 16 * acc + hexDigitVal c) 0

/-- JS `parseFloat`: skip leading whitespace, optional sign, longest decimal
mantissa (with optional fraction) and optional exponent; `none` models `NaN`
(no digits found).  The `Infinity` literal is not modelled. -/
def parseFloat (s : List Char) : Option ℚ :=
  let s0 := s.dropWhile jsWhitespace
  let sign : ℚ := match s0 with
    | '-' :: _ => -1
    | _ => 1
  let s1 := match s0 with
    | '-' :: rest => rest
    | '+' :: rest => rest
    | _ => s0
  let intPart := s1.takeWhile Char.isDigit
  let s2 := s1.dropWhile Char.isDigit
  let fracPart := match s2 with
    | '.' :: rest => rest.takeWhile Char.isDigit
    | _ => []
  let s3 := match s2 with
    | '.' :: rest => rest.dropWhile Char.isDigit
    | _ => s2
  if intPart = [] ∧ fracPart = [] then none
  else
    let mantissa : ℚ :=
      sign * ((decDigitsVal intPart : ℚ) +
        (decDigitsVal fracPart : ℚ) / (10 : ℚ) ^ fracPart.length)
    let exp : Option ℤ := match s3 with
      | 'e' :: rest | 'E' :: rest =>
        let esign : ℤ := match rest with
          | '-' :: _ => -1
          | _ => 1
        let r2 := match rest with
          | '-' :: r => r
          | '+' :: r => r
          | _ => rest
        let eds := r2.takeWhile Char.isDigit
        if eds = [] then none else some (esign * (decDigitsVal eds : ℤ))
      | _ => none
    some (match exp with
      | some e => mantissa * (10 : ℚ) ^ e
      | none => mantissa)

/-- JS `parseInt` with no radix argument: skip leading whitespace, optional
sign, `0x`/`0X` prefix selects hexadecimal, otherwise the longest run of
decimal digits; `none` models `NaN`. -/
def parseInt (s : List Char) : Option ℚ :=
  let s0 := s.dropWhile jsWhitespace
  let sign : ℚ := match s0 with
    | '-' :: _ => -1
    | _ => 1
  let s1 := match s0 with
    | '-' :: rest => rest
    | '+' :: rest => rest
    | _ => s0
  match s1 with
  | '0' :: 'x' :: rest | '0' :: 'X' :: rest =>
    let ds := rest.takeWhile isHexDigitChar
    if ds = [] then none else some (sign * (hexDigitsVal ds : ℚ))
  | _ =>
    let ds := s1.takeWhile Char.isDigit
    if ds = [] then none else some (sign * (decDigitsVal ds : ℚ))

/-- JS `x || 0` applied to a parse result: `NaN` (and `0`) collapse to `0`. -/
def jsOr0 (x : Option ℚ) : ℚ := x.getD 0

/-- JS `s || d` on strings: the empty (or missing) string is falsy. -/
def jsOrStr (s d : List Char) : List Char := if s = [] then d else s

/-- JS `+` on numbers, with `NaN` propagation. -/
def jsAdd : Option ℚ → Option ℚ → Option ℚ
  | some a, some b => some (a + b)
  | _, _ => none

/-- JS `/` by a nonzero constant, with `NaN` propagation. -/
def jsDiv (x : Option ℚ) (d : ℚ) : Option ℚ := x.map (· / d)

/-- JS unary minus, with `NaN` propagation. -/
def jsNeg (x : Option ℚ) : Option ℚ := x.map (fun q => -q)

/-! ## Protocol constants (`PROTOCOL_START`, `PROTOCOL_END`, `COMMAND_TYPES`) -/

def PROTOCOL_START : Char := '('

def PROTOCOL_END : Char := ')'

/-- The `COMMAND_TYPES` object literal: command code → display name. -/
def COMMAND_TYPES : List (List Char × List Char) :=
  [("BP00".data, "Heartbeat".data),
   ("BP01".data, "Login".data),
   ("BP02".data, "Position Report".data),
   ("BP03".data, "Alarm Report".data),
   ("BP04".data, "Status Report".data),
   ("BP05".data, "String Info".data),
   ("BP10".data, "GPS Info".data),
   ("BP11".data, "LBS Info".data),
   ("BP12".data, "WiFi Info".data),
   ("BP13".data, "Address Info".data),
   ("BP15".data, "Time Info".data),
   ("BP20".data, "Step Count".data),
   ("BP21".data, "Sleep Info".data),
   ("BP22".data, "Heart Rate".data),
   ("BP23".data, "Blood Pressure".data),
   ("BP24".data, "Temperature".data),
   ("BP25".data, "Blood Oxygen".data),
   ("BR00".data, "Response to command".data),
   ("BR01".data, "Configuration response".data)]

/-- The value of the JS property read `COMMAND_TYPES[command]`: either one of
the object literal's own display-name strings, or a member inherited from
`Object.prototype` (a function — or `Object.prototype` itself for
`__proto__`), tagged by its key.  Every such value is truthy. -/
inductive CommandNameVal
  | str : List Char → CommandNameVal
  | protoFn : List Char → CommandNameVal
  deriving DecidableEq

/-- The property keys every plain object literal inherits from
`Object.prototype`; all of their values are truthy. -/
def OBJECT_PROTOTYPE_KEYS : List (List Char) :=
  ["constructor".data, "hasOwnProperty".data, "isPrototypeOf".data,
   "propertyIsEnumerable".data, "toLocaleString".data, "toString".data,
   "valueOf".data, "__defineGetter__".data, "__defineSetter__".data,
   "__lookupGetter__".data, "__lookupSetter__".data, "__proto__".data]

/-- JS property access `COMMAND_TYPES[command]`: an own key yields its
display-name string; otherwise the read walks the prototype chain, so a key
of `Object.prototype` yields the inherited (truthy) member; any other key is
`undefined` (`none`). -/
def commandTypesGet (command : List Char) : Option CommandNameVal :=
  match COMMAND_TYPES.lookup command with
  | some v => some (.str v)
  | none =>
    if command ∈ OBJECT_PROTOTYPE_KEYS then some (.protoFn command) else none

/-- `!COMMAND_TYPES[command]`: the `console.warn` fires exactly when the
property read yields `undefined` — every present value, own display-name
string or inherited prototype member, is truthy. -/
def commandWarning (command : List Char) : Bool :=
  (commandTypesGet command).isNone

/-! ## Checksum (`GT60PacketParser.calculateChecksum`) -/

/-- The digit characters produced by JS `Number.prototype.toString(16)`. -/
def hexDigitChar (n : Nat) : Char := "0123456789abcdef".data.getD n '0'

/-- Fuel-bounded core of `toString16`; the fuel only bounds the recursion
depth and `toString16` always supplies enough of it. -/
def toString16Aux : Nat → Nat → List Char
  | 0, _ => []
  | fuel + 1, n =>
    if n < 16 then [hexDigitChar n]
    else toString16Aux fuel (n / 16) ++ [hexDigitChar (n % 16)]

/-- JS `Number.prototype.toString(16)` for a natural number: minimal-length
base-16 representation, lowercase. -/
def toString16 (n : Nat) : List Char := toString16Aux (n + 1) n

/-- JS `String.prototype.padStart(n, c)`. -/
def padStart (l : List Char) (n : Nat) (c : Char) : List Char :=
  List.replicate (n - l.length) c ++ l

/-- The accumulated `charCodeAt` sum over the string. -/
def sumCharCodes (l : List Char) : Nat := (l.map Char.toNat).sum

/-- `calculateChecksum(data)`: sum of character codes, `& 0xFFFF` (written as
`% 65536`, its value on naturals), base-16, uppercased, left-padded with `'0'`
to length 4. -/
def calculateChecksum (data : List Char) : List Char :=
  padStart ((toString16 (sumCharCodes data % 65536)).map Char.toUpper) 4 '0'

/-! ## Packet parsing (`GT60PacketParser.parsePacket`) -/

/-- The IMEI validation regex `/^\d{15}$/.test(imei)`: exactly 15 ASCII
digits. -/
def testIMEI (l : List Char) : Bool :=
  l.length == 15 && l.all Char.isDigit

/-- The three distinct `throw new Error(...)` sites of `parsePacket`:
`"Invalid packet format - missing start/end markers"`,
`"Invalid packet format - insufficient data"`, `"Invalid IMEI format"`. -/
inductive ErrorKind
  | missingDelimiters
  | insufficientFields
  | invalidIMEI
  deriving DecidableEq

/-- The object returned from the `catch` block: the error message together
with `rawData: data.toString()` (the untrimmed input). -/
structure ParseError where
  kind : ErrorKind
  rawData : List Char
  deriving DecidableEq

/-- A successfully parsed packet (the `parsedPacket` object literal); the
`timestamp` field is omitted from the model. -/
structure Packet where
  imei : List Char
  command : List Char
  commandName : CommandNameVal
  data : List (List Char)
  checksum : List Char
  calculatedChecksum : List Char
  isValid : Bool
  deriving DecidableEq

instance {e a : Type} [DecidableEq e] [DecidableEq a] :
    DecidableEq (Except e a) := fun x y =>
  match x, y with
  | .ok u, .ok v =>
    if h : u = v then .isTrue (by rw [h]) else .isFalse (by simp [h])
  | .error u, .error v =>
    if h : u = v then .isTrue (by rw [h]) else .isFalse (by simp [h])
  | .ok _, .error _ => .isFalse (by simp)
  | .error _, .ok _ => .isFalse (by simp)

/-- Body of `parsePacket` after `data.toString().trim()`; the thrown error
kinds are modelled as `Except.error`.  `packet.slice(1, -1)` is written
`(packet.drop 1).dropLast` (they agree on every string passing the marker
checks, which force length ≥ 2). -/
def parsePacketAux (packet : List Char) : Except ErrorKind Packet :=
  if ¬(packet.head? = some PROTOCOL_START ∧ packet.getLast? = some PROTOCOL_END) then
    .error .missingDelimiters
  else
    let content := (packet.drop 1).dropLast
    let parts := content.splitOn ','
    if parts.length < 3 then
      .error .insufficientFields
    else
      let imei := parts.getD 0 []
      let command := parts.getD 1 []
      let dataFields := (parts.drop 2).dropLast
      let receivedChecksum := parts.getD (parts.length - 1) []
      if !(testIMEI imei) then
        .error .invalidIMEI
      else
        let calculated := calculateChecksum (jsSubstring content 0 (jsLastIndexOf content ','))
        .ok { imei := imei
              command := command
              commandName := (commandTypesGet command).getD (.str ("Unknown".data))
              data := dataFields
              checksum := receivedChecksum
              calculatedChecksum := calculated
              isValid := calculated == receivedChecksum }

/-- `GT60PacketParser.parsePacket(data)`: trim, run the parse body, and on
failure return the recoverable error object carrying the raw input. -/
def parsePacket (data : List Char) : Except ParseError Packet :=
  match parsePacketAux (jsTrim data) with
  | .ok p => .ok p
  | .error k => .error { kind := k, rawData := data }

/-! ## Coordinate decoding (`GT60PacketParser.parseCoordinate`) -/

/-- `parseCoordinate(coord, direction)`: split two characters before the first
`'.'`, degrees + minutes/60, negated for the S/W hemispheres; missing inputs
give `0`. -/
def parseCoordinate (coord direction : List Char) : Option ℚ :=
  if coord = [] ∨ direction = [] then some 0
  else
    let idx := jsIndexOf coord '.'
    let degrees := parseFloat (jsSubstring coord 0 (idx - 2))
    let minutes := parseFloat (jsSubstring coord (idx - 2) coord.length)
    let decimal := jsAdd degrees (jsDiv minutes 60)
    if direction = ['S'] ∨ direction = ['W'] then jsNeg decimal else decimal

/-! ## Command-specific decoders (`GT60PacketParser.parse*Data`) -/

structure LoginData where
  deviceType : List Char
  firmwareVersion : List Char
  protocol : List Char
  deriving DecidableEq

structure PositionData where
  datetime : List Char
  gpsFix : List Char
  latitude : Option ℚ
  longitude : Option ℚ
  speed : ℚ
  course : ℚ
  altitude : ℚ
  satellites : ℚ
  hdop : ℚ
  deriving DecidableEq

structure AlarmData where
  alarmType : List Char
  datetime : List Char
  location : List (List Char)
  deriving DecidableEq

structure GPSData where
  satelliteCount : ℚ
  signalStrength : ℚ
  accuracy : ℚ
  deriving DecidableEq

structure LBSData where
  mcc : List Char
  mnc : List Char
  lac : List Char
  cellId : List Char
  signalStrength : ℚ
  deriving DecidableEq

structure StepData where
  stepCount : ℚ
  calories : ℚ
  distance : ℚ
  deriving DecidableEq

/-- `measureTime` is `data[1] || new Date().toISOString()`; the wall-clock
fallback is modelled as `none`. -/
structure HeartRateData where
  heartRate : ℚ
  measureTime : Option (List Char)
  deriving DecidableEq

/-- The typed payload produced by `parseCommandData`; `rawFallback` covers
both the `default` branch (`{rawData: data}`) and the short-position branch
of `parsePositionData`. -/
inductive TypedPayload
  | login : LoginData → TypedPayload
  | position : PositionData → TypedPayload
  | alarm : AlarmData → TypedPayload
  | gps : GPSData → TypedPayload
  | lbs : LBSData → TypedPayload
  | step : StepData → TypedPayload
  | heartRate : HeartRateData → TypedPayload
  | rawFallback : List (List Char) → TypedPayload
  deriving DecidableEq

/-- `parseLoginData`; a missing (`undefined`) field is modelled as `[]`,
matching the falsiness of both. -/
def parseLoginData (data : List (List Char)) : LoginData :=
  { deviceType := jsOrStr (data.getD 0 []) ("Unknown".data)
    firmwareVersion := jsOrStr (data.getD 1 []) ("Unknown".data)
    protocol := jsOrStr (data.getD 2 []) ("Unknown".data) }

/-- `parsePositionData` (returns `{rawData: data}` when fewer than 10
fields). -/
def parsePositionData (data : List (List Char)) : TypedPayload :=
  if data.length < 10 then .rawFallback data
  else .position
    { datetime := data.getD 0 []
      gpsFix := if data.getD 1 [] = ['A'] then "Valid".data else "Invalid".data
      latitude := parseCoordinate (data.getD 2 []) (data.getD 3 [])
      longitude := parseCoordinate (data.getD 4 []) (data.getD 5 [])
      speed := jsOr0 (parseFloat (data.getD 6 []))
      course := jsOr0 (parseFloat (data.getD 7 []))
      altitude := jsOr0 (parseFloat (data.getD 8 []))
      satellites := jsOr0 (parseInt (data.getD 9 []))
      hdop := jsOr0 (parseFloat (data.getD 10 [])) }

/-- `parseAlarmData`. -/
def parseAlarmData (data : List (List Char)) : AlarmData :=
  { alarmType := jsOrStr (data.getD 0 []) ("Unknown".data)
    datetime := data.getD 1 []
    location := if 2 < data.length then data.drop 2 else [] }

/-- `parseGPSData`. -/
def parseGPSData (data : List (List Char)) : GPSData :=
  { satelliteCount := jsOr0 (parseInt (data.getD 0 []))
    signalStrength := jsOr0 (parseInt (data.getD 1 []))
    accuracy := jsOr0 (parseFloat (data.getD 2 [])) }

/-- `parseLBSData`. -/
def parseLBSData (data : List (List Char)) : LBSData :=
  { mcc := jsOrStr (data.getD 0 []) ("Unknown".data)
    mnc := jsOrStr (data.getD 1 []) ("Unknown".data)
    lac := jsOrStr (data.getD 2 []) ("Unknown".data)
    cellId := jsOrStr (data.getD 3 []) ("Unknown".data)
    signalStrength := jsOr0 (parseInt (data.getD 4 [])) }

/-- `parseStepData`. -/
def parseStepData (data : List (List Char)) : StepData :=
  { stepCount := jsOr0 (parseInt (data.getD 0 []))
    calories := jsOr0 (parseFloat (data.getD 1 []))
    distance := jsOr0 (parseFloat (data.getD 2 [])) }

/-- `parseHeartRateData`; `none` for `measureTime` models the
current-timestamp fallback. -/
def parseHeartRateData (data : List (List Char)) : HeartRateData :=
  { heartRate := jsOr0 (parseInt (data.getD 0 []))
    measureTime := if (data.getD 1 []) = [] then none else some (data.getD 1 []) }

/-- `parseCommandData(command, data)`: the `switch` over command codes. -/
def parseCommandData (command : List Char) (data : List (List Char)) : TypedPayload :=
  if command = "BP01".data then .login (parseLoginData data)
  else if command = "BP02".data then parsePositionData data
  else if command = "BP03".data then .alarm (parseAlarmData data)
  else if command = "BP10".data then .gps (parseGPSData data)
  else if command = "BP11".data then .lbs (parseLBSData data)
  else if command = "BP20".data then .step (parseStepData data)
  else if command = "BP22".data then .heartRate (parseHeartRateData data)
  else .rawFallback data

/-! ## Session loop (the TCP `socket.on('data', ...)` handler)

The handler calls `parser.parsePacket(data)` once per arrival; on success it
decodes with `parseCommandData` and writes `(<imei>,BR00,OK)` back, on failure
it only logs.  The parser's `this.buffer` field is initialized in the
constructor but never read or written afterwards, so the handler carries no
state between arrivals. -/

/-- Outcome of one `data` event. -/
inductive ArrivalResult
  | parsed : Packet → TypedPayload → List Char → ArrivalResult
  | failed : ParseError → ArrivalResult
  deriving DecidableEq

/-- One invocation of the socket `data` handler. -/
def handleData (data : List Char) : ArrivalResult :=
  match parsePacket data with
  | .error e => .failed e
  | .ok p => .parsed p (parseCommandData p.command p.data)
      ('(' :: (p.imei ++ (",BR00,OK)".data)))

/-- A connection's lifetime: handlers run once per arrival, in order. -/
def session (arrivals : List (List Char)) : List ArrivalResult :=
  arrivals.map handleData

/-- Frames fully processed (and acknowledged) by one arrival. -/
def framesProcessed : ArrivalResult → Nat
  | .parsed _ _ _ => 1
  | .failed _ => 0

/-- Total acknowledgments written during a session. -/
def acksSent (rs : List ArrivalResult) : Nat := (rs.map framesProcessed).sum

/-- Comma-join of the frame pieces, as in the wire-format description
`imei , command , field₁ , … , fieldₙ`. -/
def joinComma : List (List Char) → List Char
  | [] => []
  | [x] => x
  | x :: xs => x ++ ',' :: joinComma xs

/-! ## Helper lemmas -/

theorem jsTrim_cons_concat (a b : Char) (m : List Char)
    (ha : jsWhitespace a = false) (hb : jsWhitespace b = false) :
    jsTrim (a :: (m ++ [b])) = a :: (m ++ [b]) := by
  unfold jsTrim
  rw [List.dropWhile_cons_of_neg (by simp [ha])]
  rw [show (a :: (m ++ [b])).reverse = b :: (m.reverse ++ [a]) by simp]
  rw [List.dropWhile_cons_of_neg (by simp [hb])]
  simp

theorem splitOn_eq_single {l : List Char} (h : ',' ∉ l) : l.splitOn ',' = [l] := by
  simp only [List.splitOn]
  exact List.splitOnP_eq_single _ _ (fun x hx => by
    simp only [beq_iff_eq]
    rintro rfl
    exact h hx)

theorem splitOn_sep_append {xs : List Char} (h : ',' ∉ xs) (as : List Char) :
    (xs ++ ',' :: as).splitOn ',' = xs :: as.splitOn ',' := by
  simp only [List.splitOn]
  exact List.splitOnP_first _ _ (fun x hx => by
    simp only [beq_iff_eq]
    rintro rfl
    exact h hx) ',' (by simp) as

theorem joinComma_cons_cons (x y : List Char) (xs : List (List Char)) :
    joinComma (x :: y :: xs) = x ++ ',' :: joinComma (y :: xs) := rfl

theorem joinComma_splitOn : ∀ pieces : List (List Char), pieces ≠ [] →
    (∀ l ∈ pieces, ',' ∉ l) → (joinComma pieces).splitOn ',' = pieces
  | [], h, _ => absurd rfl h
  | [x], _, h => by
    simp only [joinComma]
    exact splitOn_eq_single (h x (by simp))
  | x :: y :: rest, _, h => by
    rw [joinComma_cons_cons, splitOn_sep_append (h x (by simp)) _,
      joinComma_splitOn (y :: rest) (by simp)
        (fun l hl => h l (List.mem_cons_of_mem _ hl))]

theorem joinComma_concat : ∀ (xs : List (List Char)) (y : List Char), xs ≠ [] →
    joinComma (xs ++ [y]) = joinComma xs ++ ',' :: y
  | [], _, h => absurd rfl h
  | [x], y, _ => rfl
  | x :: x' :: rest, y, _ => by
    have ih := joinComma_concat (x' :: rest) y (by simp)
    simp only [List.cons_append, joinComma_cons_cons] at ih ⊢
    rw [ih]
    simp

theorem lastIndexOfAux_eq_none {c : Char} {l : List Char} (h : c ∉ l) :
    lastIndexOfAux l c = none := by
  induction l with
  | nil => rfl
  | cons x xs ih =>
    simp only [lastIndexOfAux, ih (fun hm => h (List.mem_cons_of_mem _ hm))]
    rw [if_neg]
    intro he
    exact h (he ▸ List.mem_cons_self x xs)

theorem lastIndexOfAux_append_sep {ys : List Char} (hy : ',' ∉ ys)
    (xs : List Char) : lastIndexOfAux (xs ++ ',' :: ys) ',' = some xs.length := by
  induction xs with
  | nil =>
    simp only [List.nil_append, lastIndexOfAux, lastIndexOfAux_eq_none hy, if_pos rfl]
    rfl
  | cons x xs ih =>
    simp only [List.cons_append, lastIndexOfAux, List.append_eq]
    rw [ih]
    simp

theorem jsLastIndexOf_append_sep {xs ys : List Char} (hy : ',' ∉ ys) :
    jsLastIndexOf (xs ++ ',' :: ys) ',' = (xs.length : Int) := by
  unfold jsLastIndexOf
  rw [lastIndexOfAux_append_sep hy]

theorem jsSubstring_prefix (l1 l2 : List Char) :
    jsSubstring (l1 ++ l2) 0 (l1.length : Int) = l1 := by
  unfold jsSubstring
  simp [Nat.min_eq_left (Nat.le_add_right _ _), List.take_left]

theorem getD_concat_length (l : List (List Char)) (y : List Char) :
    (l ++ [y]).getD l.length [] = y := by
  simp [List.getD_eq_getElem?_getD, List.getElem?_append_right (le_refl l.length)]

theorem hexDigitChar_mem (d : Nat) (h : d < 16) :
    hexDigitChar d ∈ "0123456789abcdef".data := by
  interval_cases d <;> decide

theorem toString16Aux_length_le (fuel : Nat) :
    ∀ n k, 1 ≤ k → n < 16 ^ k → (toString16Aux fuel n).length ≤ k := by
  induction fuel with
  | zero =>
    intro n k hk _
    simp [toString16Aux]
  | succ fuel ih =>
    intro n k hk hn
    simp only [toString16Aux]
    split
    · simpa using hk
    · rename_i hge
      rcases k with _ | j
      · omega
      · have hj : 1 ≤ j := by
          by_contra hj0
          have hj1 : j = 0 := by omega
          subst hj1
          simp [pow_one] at hn
          omega
        have hdiv : n / 16 < 16 ^ j := by
          rw [Nat.div_lt_iff_lt_mul (by norm_num)]
          calc n < 16 ^ (j + 1) := hn
            _ = 16 ^ j * 16 := by ring
        have := ih (n / 16) j hj hdiv
        simp only [List.length_append, List.length_singleton]
        omega

theorem toString16_length_le (k : Nat) :
    ∀ n, 1 ≤ k → n < 16 ^ k → (toString16 n).length ≤ k :=
  fun n hk hn => toString16Aux_length_le _ n k hk hn

theorem toString16Aux_chars (fuel : Nat) :
    ∀ n, ∀ c ∈ toString16Aux fuel n, c ∈ "0123456789abcdef".data := by
  induction fuel with
  | zero =>
    intro n c hc
    simp [toString16Aux] at hc
  | succ fuel ih =>
    intro n c hc
    simp only [toString16Aux] at hc
    split at hc
    · simp only [List.mem_singleton] at hc
      subst hc
      exact hexDigitChar_mem _ (by assumption)
    · rcases List.mem_append.1 hc with h | h
      · exact ih (n / 16) c h
      · simp only [List.mem_singleton] at h
        subst h
        exact hexDigitChar_mem _ (Nat.mod_lt _ (by omega))

theorem toString16_chars (n : Nat) :
    ∀ c ∈ toString16 n, c ∈ "0123456789abcdef".data :=
  toString16Aux_chars _ n

theorem toUpper_mem_hexUpper {c : Char} (h : c ∈ "0123456789abcdef".data) :
    c.toUpper ∈ "0123456789ABCDEF".data := by
  fin_cases h <;> decide

theorem calculateChecksum_len (s : List Char) : (calculateChecksum s).length = 4 := by
  unfold calculateChecksum padStart
  have h4 : (toString16 (sumCharCodes s % 65536)).length ≤ 4 := by
    apply toString16_length_le 4 _ (by norm_num)
    have : sumCharCodes s % 65536 < 65536 := Nat.mod_lt _ (by norm_num)
    calc sumCharCodes s % 65536 < 65536 := this
      _ = 16 ^ 4 := by norm_num
  simp only [List.length_append, List.length_replicate, List.length_map]
  omega

theorem calculateChecksum_mem (s : List Char) :
    ∀ c ∈ calculateChecksum s, c ∈ "0123456789ABCDEF".data := by
  intro c hc
  unfold calculateChecksum padStart at hc
  rcases List.mem_append.1 hc with h | h
  · have := List.eq_of_mem_replicate h
    subst this
    decide
  · rcases List.mem_map.1 h with ⟨d, hd, rfl⟩
    exact toUpper_mem_hexUpper (toString16_chars _ d hd)

theorem comma_not_mem_checksum (s : List Char) : ',' ∉ calculateChecksum s := by
  intro h
  have hmem := calculateChecksum_mem s ',' h
  revert hmem
  decide

theorem digit_no_comma {l : List Char} (h : ∀ c ∈ l, c.isDigit = true) : ',' ∉ l := by
  intro hc
  have := h ',' hc
  simp [Char.isDigit] at this

theorem bang_eq_true_of_false {b : Bool} (h : b = false) : (!b) = true := by
  rw [h]
  rfl

theorem not_bang_eq_true_of_true {b : Bool} (h : b = true) : ¬((!b) = true) := by
  rw [h]
  decide

theorem parsePacket_ok_iff {s : List Char} {p : Packet} :
    parsePacket s = .ok p ↔ parsePacketAux (jsTrim s) = .ok p := by
  unfold parsePacket
  cases h : parsePacketAux (jsTrim s) <;> simp

theorem parsePacket_error_iff {s : List Char} {k : ErrorKind} {r : List Char} :
    parsePacket s = .error ⟨k, r⟩ ↔ parsePacketAux (jsTrim s) = .error k ∧ r = s := by
  unfold parsePacket
  cases h : parsePacketAux (jsTrim s) with
  | ok p => simp
  | error k' =>
    simp only [Except.error.injEq, ParseError.mk.injEq]
    constructor
    · rintro ⟨rfl, rfl⟩
      exact ⟨rfl, rfl⟩
    · rintro ⟨rfl, rfl⟩
      exact ⟨rfl, rfl⟩

theorem parsePacketAux_eq_ok {t : List Char} {p : Packet}
    (h : parsePacketAux t = .ok p) :
    (t.head? = some PROTOCOL_START ∧ t.getLast? = some PROTOCOL_END) ∧
    ¬((((t.drop 1).dropLast).splitOn ',').length < 3) ∧
    testIMEI ((((t.drop 1).dropLast).splitOn ',').getD 0 []) = true ∧
    p = { imei := (((t.drop 1).dropLast).splitOn ',').getD 0 []
          command := (((t.drop 1).dropLast).splitOn ',').getD 1 []
          commandName := (commandTypesGet
            ((((t.drop 1).dropLast).splitOn ',').getD 1 [])).getD (.str ("Unknown".data))
          data := ((((t.drop 1).dropLast).splitOn ',').drop 2).dropLast
          checksum := (((t.drop 1).dropLast).splitOn ',').getD
            ((((t.drop 1).dropLast).splitOn ',').length - 1) []
          calculatedChecksum := calculateChecksum (jsSubstring ((t.drop 1).dropLast) 0
            (jsLastIndexOf ((t.drop 1).dropLast) ','))
          isValid := calculateChecksum (jsSubstring ((t.drop 1).dropLast) 0
              (jsLastIndexOf ((t.drop 1).dropLast) ',')) ==
            (((t.drop 1).dropLast).splitOn ',').getD
              ((((t.drop 1).dropLast).splitOn ',').length - 1) [] } := by
  unfold parsePacketAux at h
  dsimp only at h
  by_cases h1 : t.head? = some PROTOCOL_START ∧ t.getLast? = some PROTOCOL_END
  · rw [if_neg (not_not_intro h1)] at h
    by_cases h2 : (((t.drop 1).dropLast).splitOn ',').length < 3
    · rw [if_pos h2] at h
      exact absurd h (by simp)
    · rw [if_neg h2] at h
      by_cases h3 : testIMEI ((((t.drop 1).dropLast).splitOn ',').getD 0 []) = true
      · rw [if_neg (not_bang_eq_true_of_true h3)] at h
        simp only [Except.ok.injEq] at h
        exact ⟨h1, h2, h3, h.symm⟩
      · have hf : testIMEI ((((t.drop 1).dropLast).splitOn ',').getD 0 []) = false := by
          simpa using h3
        rw [if_pos (bang_eq_true_of_false hf)] at h
        exact absurd h (by simp)
  · rw [if_pos h1] at h
    exact absurd h (by simp)

theorem parsePacketAux_missing_iff (t : List Char) :
    parsePacketAux t = .error .missingDelimiters ↔
      ¬(t.head? = some PROTOCOL_START ∧ t.getLast? = some PROTOCOL_END) := by
  unfold parsePacketAux
  dsimp only
  by_cases h1 : t.head? = some PROTOCOL_START ∧ t.getLast? = some PROTOCOL_END
  · rw [if_neg (not_not_intro h1)]
    simp only [h1, not_true, iff_false]
    by_cases h2 : (((t.drop 1).dropLast).splitOn ',').length < 3
    · rw [if_pos h2]
      simp
    · rw [if_neg h2]
      by_cases h3 : testIMEI ((((t.drop 1).dropLast).splitOn ',').getD 0 []) = true
      · rw [if_neg (not_bang_eq_true_of_true h3)]
        simp
      · have hf : testIMEI ((((t.drop 1).dropLast).splitOn ',').getD 0 []) = false := by
          simpa using h3
        rw [if_pos (bang_eq_true_of_false hf)]
        simp
  · rw [if_pos h1]
    simp [h1]

theorem parsePacketAux_insufficient_iff (t : List Char)
    (hm : t.head? = some PROTOCOL_START ∧ t.getLast? = some PROTOCOL_END) :
    parsePacketAux t = .error .insufficientFields ↔
      ((((t.drop 1).dropLast).splitOn ',').length < 3) := by
  unfold parsePacketAux
  dsimp only
  rw [if_neg (not_not_intro hm)]
  by_cases h2 : (((t.drop 1).dropLast).splitOn ',').length < 3
  · rw [if_pos h2]
    exact iff_of_true rfl h2
  · rw [if_neg h2]
    by_cases h3 : testIMEI ((((t.drop 1).dropLast).splitOn ',').getD 0 []) = true
    · rw [if_neg (not_bang_eq_true_of_true h3)]
      exact iff_of_false (by simp) h2
    · have hf : testIMEI ((((t.drop 1).dropLast).splitOn ',').getD 0 []) = false := by
        simpa using h3
      rw [if_pos (bang_eq_true_of_false hf)]
      exact iff_of_false (by simp) h2

theorem parsePacketAux_invalid_iff (t : List Char)
    (hm : t.head? = some PROTOCOL_START ∧ t.getLast? = some PROTOCOL_END)
    (hl : ¬((((t.drop 1).dropLast).splitOn ',').length < 3)) :
    parsePacketAux t = .error .invalidIMEI ↔
      testIMEI ((((t.drop 1).dropLast).splitOn ',').getD 0 []) = false := by
  unfold parsePacketAux
  dsimp only
  rw [if_neg (not_not_intro hm), if_neg hl]
  by_cases h3 : testIMEI ((((t.drop 1).dropLast).splitOn ',').getD 0 []) = true
  · rw [if_neg (not_bang_eq_true_of_true h3)]
    rw [h3]
    simp
  · have hf : testIMEI ((((t.drop 1).dropLast).splitOn ',').getD 0 []) = false := by
      simpa using h3
    rw [if_pos (bang_eq_true_of_false hf)]
    exact iff_of_true rfl hf

theorem parsePacketAux_ok_of (t : List Char)
    (hm : t.head? = some PROTOCOL_START ∧ t.getLast? = some PROTOCOL_END)
    (hl : ¬((((t.drop 1).dropLast).splitOn ',').length < 3))
    (hi : testIMEI ((((t.drop 1).dropLast).splitOn ',').getD 0 []) = true) :
    ∃ p, parsePacketAux t = .ok p := by
  unfold parsePacketAux
  dsimp only
  rw [if_neg (not_not_intro hm), if_neg hl, if_neg (not_bang_eq_true_of_true hi)]
  exact ⟨_, rfl⟩

/-! ## Claim theorems -/

/-- C3: a frame assembled as `(` + imei + `,` + command + (`,` + field)* + `,`
+ `calculateChecksum(imei,command,fields...)` + `)`, with a 15-digit IMEI and
no comma or marker characters inside the command or fields, parses
successfully and the resulting packet has `isValid = true`. -/
theorem checksum_roundtrip_valid
    (imei command : List Char) (fields : List (List Char))
    (h1 : imei.length = 15) (h2 : ∀ c ∈ imei, c.isDigit = true)
    (h3 : ',' ∉ command ∧ PROTOCOL_START ∉ command ∧ PROTOCOL_END ∉ command)
    (h4 : ∀ f ∈ fields, ',' ∉ f ∧ PROTOCOL_START ∉ f ∧ PROTOCOL_END ∉ f) :
    ∃ p, parsePacket (PROTOCOL_START ::
        ((joinComma ([imei, command] ++ fields) ++
          ',' :: calculateChecksum (joinComma ([imei, command] ++ fields))) ++
            [PROTOCOL_END])) = .ok p ∧ p.isValid = true := by
  set body := joinComma ([imei, command] ++ fields) with hbody
  set cs := calculateChecksum body with hcsdef
  set frame := PROTOCOL_START :: ((body ++ ',' :: cs) ++ [PROTOCOL_END]) with hframe
  have htrim : jsTrim frame = frame :=
    jsTrim_cons_concat _ _ _ (by decide) (by decide)
  have hhead : frame.head? = some PROTOCOL_START := rfl
  have hlast : frame.getLast? = some PROTOCOL_END := by
    rw [hframe, show PROTOCOL_START :: ((body ++ ',' :: cs) ++ [PROTOCOL_END]) =
      (PROTOCOL_START :: (body ++ ',' :: cs)) ++ [PROTOCOL_END] by simp]
    exact List.getLast?_concat _
  have hcontent : (frame.drop 1).dropLast = body ++ ',' :: cs := by
    rw [hframe]
    show ((body ++ ',' :: cs) ++ [PROTOCOL_END]).dropLast = body ++ ',' :: cs
    exact List.dropLast_concat
  have hnocs : ',' ∉ cs := comma_not_mem_checksum body
  have hparts : (body ++ ',' :: cs).splitOn ',' =
      imei :: command :: (fields ++ [cs]) := by
    have hjc : body ++ ',' :: cs = joinComma (([imei, command] ++ fields) ++ [cs]) := by
      rw [joinComma_concat _ _ (by simp)]
    rw [hjc, joinComma_splitOn _ (by simp) ?pieces]
    · simp
    case pieces =>
      intro l hl
      simp only [List.mem_append, List.mem_cons, List.mem_singleton,
        List.not_mem_nil, or_false] at hl
      rcases hl with ((rfl | rfl) | hf) | rfl
      · exact digit_no_comma h2
      · exact h3.1
      · exact (h4 l hf).1
      · exact hnocs
  have hlen : (imei :: command :: (fields ++ [cs])).length = fields.length + 3 := by
    simp
  have hrecv : (imei :: command :: (fields ++ [cs])).getD
      ((imei :: command :: (fields ++ [cs])).length - 1) [] = cs := by
    rw [hlen]
    show (imei :: command :: (fields ++ [cs])).getD (fields.length + 2) [] = cs
    simp only [List.getD_cons_succ]
    exact getD_concat_length fields cs
  have hlio : jsLastIndexOf (body ++ ',' :: cs) ',' = (body.length : Int) :=
    jsLastIndexOf_append_sep hnocs
  have hsub : jsSubstring (body ++ ',' :: cs) 0 (body.length : Int) = body :=
    jsSubstring_prefix body (',' :: cs)
  have haux : parsePacketAux frame = .ok
      { imei := imei, command := command,
        commandName := (commandTypesGet command).getD (.str ("Unknown".data)),
        data := fields, checksum := cs, calculatedChecksum := cs,
        isValid := true } := by
    unfold parsePacketAux
    rw [if_neg (not_not_intro ⟨hhead, hlast⟩)]
    simp only [hcontent, hparts]
    rw [if_neg (by rw [hlen]; omega)]
    simp only [List.getD_cons_zero, List.getD_cons_succ]
    have htest : testIMEI imei = true := by
      simp only [testIMEI, Bool.and_eq_true, beq_iff_eq, List.all_eq_true]
      exact ⟨h1, fun c hc => h2 c hc⟩
    rw [if_neg (by simp [htest])]
    rw [hrecv, hlio, hsub, ← hcsdef]
    simp [List.dropLast_concat]
  have hfull : parsePacket frame = .ok
      { imei := imei, command := command,
        commandName := (commandTypesGet command).getD (.str ("Unknown".data)),
        data := fields, checksum := cs, calculatedChecksum := cs,
        isValid := true } := by
    unfold parsePacket
    rw [htrim, haux]
  exact ⟨_, hfull, rfl⟩

/-- Witness for `checksum_roundtrip_valid` at IMEI `123456789012345`,
command `BP00`, no fields. -/
theorem checksum_roundtrip_valid_witness :
    ∃ p, parsePacket (PROTOCOL_START ::
        ((joinComma (["123456789012345".data, "BP00".data] ++ []) ++
          ',' :: calculateChecksum
            (joinComma (["123456789012345".data, "BP00".data] ++ []))) ++
            [PROTOCOL_END])) = .ok p ∧ p.isValid = true :=
  checksum_roundtrip_valid ("123456789012345".data) ("BP00".data) []
    (by decide) (by decide) (by decide) (by decide)

/-- C4: parsing fails with `missingDelimiters` exactly when the trimmed input
lacks the start or end marker; given the markers, it fails with
`insufficientFields` exactly when the stripped content splits into fewer than
3 comma-separated parts; given at least 3 parts, it fails with `invalidIMEI`
exactly when part 0 fails the 15-digit test; otherwise it succeeds (a checksum
mismatch is never a failure); and every failure carries the original raw
input. -/
theorem parse_failure_taxonomy (s : List Char) :
    (parsePacket s = .error ⟨.missingDelimiters, s⟩ ↔
      ¬((jsTrim s).head? = some PROTOCOL_START ∧
        (jsTrim s).getLast? = some PROTOCOL_END)) ∧
    (∀ e, parsePacket s = .error e → e.rawData = s) ∧
    (((jsTrim s).head? = some PROTOCOL_START ∧
      (jsTrim s).getLast? = some PROTOCOL_END) →
      ((parsePacket s = .error ⟨.insufficientFields, s⟩ ↔
        ((((jsTrim s).drop 1).dropLast).splitOn ',').length < 3) ∧
       (¬(((((jsTrim s).drop 1).dropLast).splitOn ',').length < 3) →
        ((parsePacket s = .error ⟨.invalidIMEI, s⟩ ↔
          testIMEI (((((jsTrim s).drop 1).dropLast).splitOn ',').getD 0 []) = false) ∧
         (testIMEI (((((jsTrim s).drop 1).dropLast).splitOn ',').getD 0 []) = true →
          ∃ p, parsePacket s = .ok p))))) := by
  refine ⟨?_, ?_, ?_⟩
  · rw [parsePacket_error_iff, parsePacketAux_missing_iff]
    simp
  · intro e he
    cases e with
    | mk k r => exact (parsePacket_error_iff.1 he).2
  · intro hm
    constructor
    · rw [parsePacket_error_iff, parsePacketAux_insufficient_iff _ hm]
      simp
    · intro hl
      constructor
      · rw [parsePacket_error_iff, parsePacketAux_invalid_iff _ hm hl]
        simp
      · intro hi
        obtain ⟨p, hp⟩ := parsePacketAux_ok_of _ hm hl hi
        exact ⟨p, parsePacket_ok_iff.2 hp⟩

/-- Witness for `parse_failure_taxonomy`: a frame with only two parts fails
with `insufficientFields`, and a complete well-formed frame parses. -/
theorem parse_failure_taxonomy_witness :
    parsePacket ("(123456789012345,BP00)".data) =
      .error ⟨.insufficientFields, "(123456789012345,BP00)".data⟩ ∧
    (∃ p, parsePacket ("(123456789012345,BP00,042A)".data) = .ok p) :=
  ⟨(((parse_failure_taxonomy ("(123456789012345,BP00)".data)).2.2
      (by decide)).1).mpr (by decide),
   (((parse_failure_taxonomy ("(123456789012345,BP00,042A)".data)).2.2
      (by decide)).2 (by decide)).2 (by decide)⟩

/-- C9: for every successfully parsed frame, the packet field sequence equals
`parts[2..last-1]` of the comma-split content, so its length is the total
number of comma-separated parts minus 3. -/
theorem packet_fields_invariant (s : List Char) (p : Packet)
    (h : parsePacket s = .ok p) :
    p.data = (((((jsTrim s).drop 1).dropLast).splitOn ',').drop 2).dropLast ∧
    p.data.length = ((((jsTrim s).drop 1).dropLast).splitOn ',').length - 3 := by
  obtain ⟨-, -, -, rfl⟩ := parsePacketAux_eq_ok (parsePacket_ok_iff.1 h)
  refine ⟨rfl, ?_⟩
  simp only [List.length_dropLast, List.length_drop]
  omega

/-- Witness for `packet_fields_invariant` on a one-field `BP22` frame. -/
theorem packet_fields_invariant_witness :
    Packet.data
      { imei := "123456789012345".data, command := "BP22".data,
        commandName := .str ("Heart Rate".data), data := ["72".data],
        checksum := "04C3".data, calculatedChecksum := "04C3".data,
        isValid := true } =
      (((((jsTrim ("(123456789012345,BP22,72,04C3)".data)).drop 1).dropLast).splitOn
        ',').drop 2).dropLast ∧
    (Packet.data
      { imei := "123456789012345".data, command := "BP22".data,
        commandName := .str ("Heart Rate".data), data := ["72".data],
        checksum := "04C3".data, calculatedChecksum := "04C3".data,
        isValid := true }).length =
      ((((jsTrim ("(123456789012345,BP22,72,04C3)".data)).drop 1).dropLast).splitOn
        ',').length - 3 :=
  packet_fields_invariant ("(123456789012345,BP22,72,04C3)".data) _ (by decide)

/-- C7 counterexample: command lookup is a JS object property access, which
walks the prototype chain.  The well-formed frame
`(123456789012345,toString,ABCD)` has a command code outside the registry,
yet `COMMAND_TYPES['toString']` is the inherited, truthy
`Object.prototype.toString`, so no warning fires and the packet's
`commandName` is that inherited function — not `"Unknown"`. -/
theorem unknown_command_counterexample :
    parsePacket ("(123456789012345,toString,ABCD)".data) = .ok
      { imei := "123456789012345".data, command := "toString".data,
        commandName := .protoFn ("toString".data), data := [],
        checksum := "ABCD".data, calculatedChecksum := "0692".data,
        isValid := false } ∧
    COMMAND_TYPES.lookup ("toString".data) = none ∧
    CommandNameVal.protoFn ("toString".data) ≠ .str ("Unknown".data) ∧
    commandWarning ("toString".data) = false := by
  refine ⟨by decide, by decide, by decide, by decide⟩

/-- C7 (amended): a frame whose command code is neither a registry entry nor
a key inherited from `Object.prototype` still parses (given it is otherwise
well-formed) with `commandName = "Unknown"`; the warning is flagged, and its
decode is the `{rawData: fields}` fallback payload. -/
theorem unknown_command_fallback (s : List Char) (p : Packet)
    (hok : parsePacket s = .ok p)
    (hunk : commandTypesGet p.command = none) :
    p.commandName = .str ("Unknown".data) ∧
    commandWarning p.command = true ∧
    parseCommandData p.command p.data = .rawFallback p.data := by
  obtain ⟨-, -, -, hp⟩ := parsePacketAux_eq_ok (parsePacket_ok_iff.1 hok)
  have hcmdName : p.commandName =
      (commandTypesGet p.command).getD (.str ("Unknown".data)) := by
    rw [hp]
  have hlook : COMMAND_TYPES.lookup p.command = none := by
    unfold commandTypesGet at hunk
    cases h : COMMAND_TYPES.lookup p.command with
    | none => rfl
    | some v =>
      rw [h] at hunk
      simp at hunk
  have hne : ∀ code ∈ ["BP01".data, "BP02".data, "BP03".data, "BP10".data,
      "BP11".data, "BP20".data, "BP22".data], p.command ≠ code := by
    intro code hc he
    rw [he] at hlook
    fin_cases hc <;> revert hlook <;> decide
  refine ⟨?_, ?_, ?_⟩
  · rw [hcmdName, hunk]
    rfl
  · unfold commandWarning
    rw [hunk]
    rfl
  · unfold parseCommandData
    rw [if_neg (hne _ (by simp)), if_neg (hne _ (by simp)),
      if_neg (hne _ (by simp)), if_neg (hne _ (by simp)),
      if_neg (hne _ (by simp)), if_neg (hne _ (by simp)),
      if_neg (hne _ (by simp))]

/-- Witness for `unknown_command_fallback` on a `ZZ99` frame. -/
theorem unknown_command_fallback_witness :
    Packet.commandName
      { imei := "123456789012345".data, command := "ZZ99".data,
        commandName := .str ("Unknown".data), data := [],
        checksum := "ABCD".data, calculatedChecksum := "045E".data,
        isValid := false } = .str ("Unknown".data) ∧
    commandWarning (Packet.command
      { imei := "123456789012345".data, command := "ZZ99".data,
        commandName := .str ("Unknown".data), data := [],
        checksum := "ABCD".data, calculatedChecksum := "045E".data,
        isValid := false }) = true ∧
    parseCommandData ("ZZ99".data) [] = .rawFallback [] :=
  unknown_command_fallback ("(123456789012345,ZZ99,ABCD)".data) _
    (by decide) (by decide)

/-- C2: the session loop writes the acknowledgment `(<imei>,BR00,OK)` exactly
when parsing succeeded (independently of the `isValid` checksum flag), and
writes nothing when parsing returned an error. -/
theorem ack_iff_parse_success (s : List Char) :
    (∀ p, parsePacket s = .ok p →
      handleData s = .parsed p (parseCommandData p.command p.data)
        ('(' :: (p.imei ++ (",BR00,OK)".data)))) ∧
    (∀ e, parsePacket s = .error e → handleData s = .failed e) := by
  constructor
  · intro p hp
    unfold handleData
    rw [hp]
  · intro e he
    unfold handleData
    rw [he]

/-- Witness for `ack_iff_parse_success`: a frame whose checksum does not
match (`isValid = false`) still gets the acknowledgment. -/
theorem ack_iff_parse_success_witness :
    Packet.isValid
      { imei := "123456789012345".data, command := "BP00".data,
        commandName := .str ("Heartbeat".data), data := [],
        checksum := "FFFF".data, calculatedChecksum := "042A".data,
        isValid := false } = false ∧
    handleData ("(123456789012345,BP00,FFFF)".data) =
      .parsed
        { imei := "123456789012345".data, command := "BP00".data,
          commandName := .str ("Heartbeat".data), data := [],
          checksum := "FFFF".data, calculatedChecksum := "042A".data,
          isValid := false }
        (parseCommandData ("BP00".data) [])
        ('(' :: ("123456789012345".data ++ (",BR00,OK)".data))) :=
  ⟨rfl, (ack_iff_parse_success ("(123456789012345,BP00,FFFF)".data)).1 _ (by decide)⟩

/-- C1 counterexample: the `data` handler performs exactly one parse per
arrival and keeps no buffer.  An arrival holding two concatenated complete
frames is processed as a single frame (one result, one acknowledgment), not
two; a frame split across two arrivals yields zero acknowledgments (both
halves fail), not one after the second arrival. -/
theorem frame_scanning_counterexample :
    (session [("(123456789012345,BP00,042A)(123456789012345,BP00,042A)".data)]).length = 1 ∧
    acksSent (session
      [("(123456789012345,BP00,042A)(123456789012345,BP00,042A)".data)]) = 1 ∧
    acksSent (session [("(123456789012345,BP0".data), ("0,042A)".data)]) = 0 := by
  refine ⟨rfl, ?_, ?_⟩ <;> decide

/-- C1 (amended): each arrival is handled in isolation — the session result
for an extended arrival list is the previous results plus one handler
invocation on the new arrival alone (no bytes are retained between calls),
and a single arrival never produces more than one processed frame. -/
theorem per_arrival_single_parse (arrivals : List (List Char)) (a : List Char) :
    session (arrivals ++ [a]) = session arrivals ++ [handleData a] ∧
    framesProcessed (handleData a) ≤ 1 := by
  constructor
  · unfold session
    rw [List.map_append]
    rfl
  · cases handleData a <;> simp [framesProcessed]

/-- C5: `calculateChecksum` is the character-code sum masked to 16 bits,
written as 4 uppercase hexadecimal characters (always exactly 4, always from
`0-9A-F`), and it is deterministic. -/
theorem calculateChecksum_spec (s : List Char) :
    calculateChecksum s =
      padStart ((toString16 (sumCharCodes s % 65536)).map Char.toUpper) 4 '0' ∧
    (calculateChecksum s).length = 4 ∧
    (∀ c ∈ calculateChecksum s, c ∈ "0123456789ABCDEF".data) ∧
    (∀ t, s = t → calculateChecksum s = calculateChecksum t) :=
  ⟨rfl, calculateChecksum_len s, calculateChecksum_mem s, fun _ h => by rw [h]⟩

/-- Witness for `calculateChecksum_spec` at a concrete string. -/
theorem calculateChecksum_spec_witness :
    (calculateChecksum ("123456789012345,BP00".data)).length = 4 ∧
    calculateChecksum ("123456789012345,BP00".data) =
      calculateChecksum ("123456789012345,BP00".data) :=
  ⟨(calculateChecksum_spec ("123456789012345,BP00".data)).2.1,
   (calculateChecksum_spec ("123456789012345,BP00".data)).2.2.2
     ("123456789012345,BP00".data) rfl⟩

/-- C6: `parseCoordinate` yields 0 when the coordinate or hemisphere is
missing; hemisphere `S`/`W` negates the value obtained with `N`; any other
non-empty hemisphere value gives the same (positive) value as `N`; and on the
BP02 example coordinates it gives ≈31.27975 and ≈121.37975 (within 10⁻⁴: the
exact values are 31 + 16.7845/60 = 31.279741666… and
121 + 22.7845/60 = 121.379741666…). -/
theorem parseCoordinate_spec :
    (∀ direction, parseCoordinate [] direction = some 0) ∧
    (∀ coord, parseCoordinate coord [] = some 0) ∧
    (∀ coord, coord ≠ [] →
      parseCoordinate coord ['S'] = jsNeg (parseCoordinate coord ['N']) ∧
      parseCoordinate coord ['W'] = jsNeg (parseCoordinate coord ['N'])) ∧
    (∀ coord direction, coord ≠ [] → direction ≠ [] →
      direction ≠ ['S'] → direction ≠ ['W'] →
      parseCoordinate coord direction = parseCoordinate coord ['N']) ∧
    (∀ coord direction, coord ≠ [] → direction ≠ [] →
      direction ≠ ['S'] → direction ≠ ['W'] →
      parseCoordinate coord direction =
        jsAdd (parseFloat (jsSubstring coord 0 (jsIndexOf coord '.' - 2)))
          (jsDiv (parseFloat (jsSubstring coord (jsIndexOf coord '.' - 2)
            coord.length)) 60)) ∧
    (∃ q, parseCoordinate ("3116.7845".data) ("N".data) = some q ∧
      (3127965 : ℚ) / 100000 < q ∧ q < (3127985 : ℚ) / 100000) ∧
    (∃ q, parseCoordinate ("12122.7845".data) ("E".data) = some q ∧
      (12137965 : ℚ) / 100000 < q ∧ q < (12137985 : ℚ) / 100000) := by
  refine ⟨?_, ?_, ?_, ?_, ?_, ?_, ?_⟩
  · intro d
    unfold parseCoordinate
    rw [if_pos (Or.inl rfl)]
  · intro c
    unfold parseCoordinate
    rw [if_pos (Or.inr rfl)]
  · intro c hc
    constructor
    · unfold parseCoordinate
      dsimp only
      rw [if_neg (by simp [hc]), if_pos (Or.inl rfl),
        if_neg (by simp [hc]), if_neg (by decide)]
    · unfold parseCoordinate
      dsimp only
      rw [if_neg (by simp [hc]), if_pos (Or.inr rfl),
        if_neg (by simp [hc]), if_neg (by decide)]
  · intro c d hc hd hS hW
    unfold parseCoordinate
    dsimp only
    rw [if_neg (by simp [hc, hd]), if_neg (by simp [hS, hW]),
      if_neg (by simp [hc]), if_neg (by decide)]
  · intro c d hc hd hS hW
    unfold parseCoordinate
    dsimp only
    rw [if_neg (by simp [hc, hd]), if_neg (by simp [hS, hW])]
  · have e1 : parseCoordinate ("3116.7845".data) ("N".data) =
        jsAdd (parseFloat ("31".data)) (jsDiv (parseFloat ("16.7845".data)) 60) := by
      unfold parseCoordinate
      dsimp only
      rw [if_neg (by decide),
        show jsSubstring ("3116.7845".data) 0
          (jsIndexOf ("3116.7845".data) '.' - 2) = "31".data from by decide,
        show jsSubstring ("3116.7845".data)
          (jsIndexOf ("3116.7845".data) '.' - 2)
          (("3116.7845".data).length) = "16.7845".data from by decide,
        if_neg (by decide)]
    have e2 : parseFloat ("31".data) = some ((1 : ℚ) *
        (((31 : Nat) : ℚ) + ((0 : Nat) : ℚ) / (10 : ℚ) ^ (0 : Nat))) := rfl
    have e3 : parseFloat ("16.7845".data) = some ((1 : ℚ) *
        (((16 : Nat) : ℚ) + ((7845 : Nat) : ℚ) / (10 : ℚ) ^ (4 : Nat))) := rfl
    refine ⟨(1 : ℚ) * (((31 : Nat) : ℚ) + ((0 : Nat) : ℚ) / (10 : ℚ) ^ (0 : Nat)) +
        ((1 : ℚ) * (((16 : Nat) : ℚ) + ((7845 : Nat) : ℚ) / (10 : ℚ) ^ (4 : Nat))) / 60,
      ?_, ?_, ?_⟩
    · rw [e1, e2, e3]
      rfl
    · norm_num
    · norm_num
  · have e1 : parseCoordinate ("12122.7845".data) ("E".data) =
        jsAdd (parseFloat ("121".data)) (jsDiv (parseFloat ("22.7845".data)) 60) := by
      unfold parseCoordinate
      dsimp only
      rw [if_neg (by decide),
        show jsSubstring ("12122.7845".data) 0
          (jsIndexOf ("12122.7845".data) '.' - 2) = "121".data from by decide,
        show jsSubstring ("12122.7845".data)
          (jsIndexOf ("12122.7845".data) '.' - 2)
          (("12122.7845".data).length) = "22.7845".data from by decide,
        if_neg (by decide)]
    have e2 : parseFloat ("121".data) = some ((1 : ℚ) *
        (((121 : Nat) : ℚ) + ((0 : Nat) : ℚ) / (10 : ℚ) ^ (0 : Nat))) := rfl
    have e3 : parseFloat ("22.7845".data) = some ((1 : ℚ) *
        (((22 : Nat) : ℚ) + ((7845 : Nat) : ℚ) / (10 : ℚ) ^ (4 : Nat))) := rfl
    refine ⟨(1 : ℚ) * (((121 : Nat) : ℚ) + ((0 : Nat) : ℚ) / (10 : ℚ) ^ (0 : Nat)) +
        ((1 : ℚ) * (((22 : Nat) : ℚ) + ((7845 : Nat) : ℚ) / (10 : ℚ) ^ (4 : Nat))) / 60,
      ?_, ?_, ?_⟩
    · rw [e1, e2, e3]
      rfl
    · norm_num
    · norm_num

/-- Witness for `parseCoordinate_spec`: the south hemisphere negates the
north value on a concrete coordinate. -/
theorem parseCoordinate_spec_witness :
    parseCoordinate ("3116.7845".data) ['S'] =
      jsNeg (parseCoordinate ("3116.7845".data) ['N']) :=
  (parseCoordinate_spec.2.2.1 ("3116.7845".data) (by decide)).1

/-- C8: in every command decoder, a numeric field whose parse comes back as
`NaN` (missing, empty, or non-numeric input) is stored as `0`; the decoders
are total functions and never raise. -/
theorem numeric_fallback_decoders (data : List (List Char)) :
    (10 ≤ data.length → ∃ pd, parsePositionData data = .position pd ∧
      (parseFloat (data.getD 6 []) = none → pd.speed = 0) ∧
      (parseFloat (data.getD 7 []) = none → pd.course = 0) ∧
      (parseFloat (data.getD 8 []) = none → pd.altitude = 0) ∧
      (parseInt (data.getD 9 []) = none → pd.satellites = 0) ∧
      (parseFloat (data.getD 10 []) = none → pd.hdop = 0)) ∧
    ((parseInt (data.getD 0 []) = none → (parseGPSData data).satelliteCount = 0) ∧
     (parseInt (data.getD 1 []) = none → (parseGPSData data).signalStrength = 0) ∧
     (parseFloat (data.getD 2 []) = none → (parseGPSData data).accuracy = 0)) ∧
    (parseInt (data.getD 4 []) = none → (parseLBSData data).signalStrength = 0) ∧
    ((parseInt (data.getD 0 []) = none → (parseStepData data).stepCount = 0) ∧
     (parseFloat (data.getD 1 []) = none → (parseStepData data).calories = 0) ∧
     (parseFloat (data.getD 2 []) = none → (parseStepData data).distance = 0)) ∧
    (parseInt (data.getD 0 []) = none → (parseHeartRateData data).heartRate = 0) := by
  refine ⟨?_, ⟨?_, ?_, ?_⟩, ?_, ⟨?_, ?_, ?_⟩, ?_⟩
  · intro hlen
    refine ⟨{ datetime := data.getD 0 []
              gpsFix := if data.getD 1 [] = ['A'] then "Valid".data else "Invalid".data
              latitude := parseCoordinate (data.getD 2 []) (data.getD 3 [])
              longitude := parseCoordinate (data.getD 4 []) (data.getD 5 [])
              speed := jsOr0 (parseFloat (data.getD 6 []))
              course := jsOr0 (parseFloat (data.getD 7 []))
              altitude := jsOr0 (parseFloat (data.getD 8 []))
              satellites := jsOr0 (parseInt (data.getD 9 []))
              hdop := jsOr0 (parseFloat (data.getD 10 [])) }, ?_, ?_, ?_, ?_, ?_, ?_⟩
    · unfold parsePositionData
      rw [if_neg (by omega)]
    · intro h
      show jsOr0 (parseFloat (data.getD 6 [])) = 0
      rw [h]
      rfl
    · intro h
      show jsOr0 (parseFloat (data.getD 7 [])) = 0
      rw [h]
      rfl
    · intro h
      show jsOr0 (parseFloat (data.getD 8 [])) = 0
      rw [h]
      rfl
    · intro h
      show jsOr0 (parseInt (data.getD 9 [])) = 0
      rw [h]
      rfl
    · intro h
      show jsOr0 (parseFloat (data.getD 10 [])) = 0
      rw [h]
      rfl
  · intro h
    show jsOr0 (parseInt (data.getD 0 [])) = 0
    rw [h]
    rfl
  · intro h
    show jsOr0 (parseInt (data.getD 1 [])) = 0
    rw [h]
    rfl
  · intro h
    show jsOr0 (parseFloat (data.getD 2 [])) = 0
    rw [h]
    rfl
  · intro h
    show jsOr0 (parseInt (data.getD 4 [])) = 0
    rw [h]
    rfl
  · intro h
    show jsOr0 (parseInt (data.getD 0 [])) = 0
    rw [h]
    rfl
  · intro h
    show jsOr0 (parseFloat (data.getD 1 [])) = 0
    rw [h]
    rfl
  · intro h
    show jsOr0 (parseFloat (data.getD 2 [])) = 0
    rw [h]
    rfl
  · intro h
    show jsOr0 (parseInt (data.getD 0 [])) = 0
    rw [h]
    rfl

/-- Witness for `numeric_fallback_decoders` on eleven non-numeric fields. -/
theorem numeric_fallback_decoders_witness :
    (parseLBSData (List.replicate 11 ("z".data))).signalStrength = 0 ∧
    (parseHeartRateData (List.replicate 11 ("z".data))).heartRate = 0 :=
  ⟨(numeric_fallback_decoders (List.replicate 11 ("z".data))).2.2.1 (by decide),
   (numeric_fallback_decoders (List.replicate 11 ("z".data))).2.2.2.2 (by decide)⟩

theorem jsTrim_ws_left {w l : List Char}
    (hw : ∀ c ∈ w, jsWhitespace c = true) : jsTrim (w ++ l) = jsTrim l := by
  unfold jsTrim
  rw [List.dropWhile_append_of_pos hw]

theorem jsTrim_ws_right {w l : List Char}
    (hw : ∀ c ∈ w, jsWhitespace c = true) : jsTrim (l ++ w) = jsTrim l := by
  unfold jsTrim
  rcases hfw : l.dropWhile jsWhitespace with - | ⟨x, rest⟩
  · rw [List.dropWhile_append, hfw, if_pos (by simp),
      List.dropWhile_eq_nil_iff.2 hw]
  · rw [List.dropWhile_append, hfw, if_neg (by simp)]
    rw [List.reverse_append,
      List.dropWhile_append_of_pos (fun a ha => hw a (List.mem_reverse.1 ha))]

theorem jsTrim_ws_pad (w1 w2 f : List Char)
    (hw1 : ∀ c ∈ w1, jsWhitespace c = true)
    (hw2 : ∀ c ∈ w2, jsWhitespace c = true) :
    jsTrim (w1 ++ f ++ w2) = jsTrim f := by
  rw [List.append_assoc, jsTrim_ws_left hw1, jsTrim_ws_right hw2]

/-- C10 counterexample: surrounding whitespace does change the parse result,
because the failure object echoes the untrimmed raw input. -/
theorem whitespace_equiv_counterexample :
    parsePacket (' ' :: ("abc".data)) ≠ parsePacket ("abc".data) := by decide

/-- C10 (amended): parsing `w1 ++ f ++ w2` with `w1`, `w2` whitespace gives
the same outcome as parsing `f` — identical packet on success, identical
error kind on failure — except that the failure object echoes the untrimmed
arrival `w1 ++ f ++ w2` as its raw data instead of `f`. -/
theorem whitespace_trim_equiv (w1 w2 f : List Char)
    (hw1 : ∀ c ∈ w1, jsWhitespace c = true)
    (hw2 : ∀ c ∈ w2, jsWhitespace c = true) :
    (∀ p, parsePacket f = .ok p → parsePacket (w1 ++ f ++ w2) = .ok p) ∧
    (∀ e, parsePacket f = .error e →
      parsePacket (w1 ++ f ++ w2) = .error ⟨e.kind, w1 ++ f ++ w2⟩) := by
  have htrim := jsTrim_ws_pad w1 w2 f hw1 hw2
  constructor
  · intro p hp
    rw [parsePacket_ok_iff] at hp ⊢
    rw [htrim]
    exact hp
  · intro e he
    rcases e with ⟨k, r⟩
    have h1 := (parsePacket_error_iff.1 he).1
    refine parsePacket_error_iff.2 ⟨?_, rfl⟩
    rw [htrim]
    exact h1

/-- Witness for `whitespace_trim_equiv`: a leading blank does not change a
successful parse. -/
theorem whitespace_trim_equiv_witness :
    parsePacket (([' '] : List Char) ++ "(123456789012345,BP00,042A)".data ++ []) =
      .ok { imei := "123456789012345".data, command := "BP00".data,
            commandName := .str ("Heartbeat".data), data := [],
            checksum := "042A".data, calculatedChecksum := "042A".data,
            isValid := true } :=
  (whitespace_trim_equiv [' '] [] ("(123456789012345,BP00,042A)".data)
    (by decide) (by decide)).1 _ (by decide)

end GT60
